import Mathlib

/-!
Verification of the Nacos naming gRPC client proxy
(`v2/nacos/naming/remote/naming_grpc_client_proxy.py`).

The proxy is embedded shallowly: each public operation is a pure function
from an explicit environment (credentials, injected security headers, the
current time, the HMAC primitive, and the RPC transport outcome) to a pair
of an event trace and a result.  The event trace records, in program order,
the redo-store mutations, the RPC dispatch (with the final request headers)
and the error-log calls the Python code performs; the result is an
`Except` value mirroring normal return versus a raised `NacosException`.
-/

namespace NacosNaming

/-- Modelled from the spec: `Constants.SERVICE_INFO_SPLITER` (the constants
module is not under src); the spec gives the composite key separator as
the two-character string at-at. -/
def SERVICE_INFO_SPLITER : String := "@@"

/-- Modelled from the spec: the `SERVER_ERROR` error code imported from
`nacos_exception` (not under src).  The claims use it only symbolically. -/
def SERVER_ERROR : Nat := 500

/-- Modelled from the spec: operation type constant
`NamingRemoteConstants.REGISTER_INSTANCE` (not under src). -/
def REGISTER_INSTANCE : String := "registerInstance"

/-- Modelled from the spec: operation type constant
`NamingRemoteConstants.DE_REGISTER_INSTANCE` (not under src). -/
def DE_REGISTER_INSTANCE : String := "deregisterInstance"

/-- Modelled from the spec: operation type constant
`NamingRemoteConstants.BATCH_REGISTER_INSTANCE` (not under src). -/
def BATCH_REGISTER_INSTANCE : String := "batchRegisterInstance"

/-- An application-level exception carrying an error code and a message,
mirroring `NacosException(error_code, message)`. -/
structure NacosException where
  errorCode : Nat
  message : String
deriving Repr, DecidableEq

/-- Modelled from the spec: the string rendering of a `NacosException`
(`str(e)` in the Python source; the exception class is not under src).
The spec only requires that the code and message are carried. -/
def exceptionStr (e : NacosException) : String :=
  "ErrCode:" ++ toString e.errorCode ++ ", ErrMsg:" ++ e.message

/-- Modelled from the spec: the credential tuple returned by the external
credentials provider: `(accessKeyId, accessKeySecret, securityToken?)`.
Absent components are modelled as the empty string, matching Python
truthiness on the `if credentials.get_access_key_id() and ...` test. -/
structure Credentials where
  accessKeyId : String
  accessKeySecret : String
  securityToken : String
deriving Repr, DecidableEq

/-- Modelled from the spec: a registrable endpoint
`(ip, port, weight, healthy, enabled, ephemeral, metadata, clusterName)`
(the `Instance` model class is not under src).  The numeric weight is
abstracted to a natural number; no claim inspects it. -/
structure Instance where
  ip : String
  port : Nat
  weight : Nat
  healthy : Bool
  enabled : Bool
  ephemeral : Bool
  metadata : List (String × String)
  clusterName : String
deriving Repr, DecidableEq

/-- Modelled from the spec: a service snapshot as carried by a subscribe
response (the `Service` model class is not under src). -/
structure Service where
  name : String
  groupName : String
  clusters : String
  hosts : List Instance
deriving Repr, DecidableEq

/-- Header maps.  The Python request header dict is modelled as an
association list observed only through `get_header`. -/
abbrev Headers := List (String × String)

/-- Modelled from the spec: `request.put_header(key, value)` on
`AbstractNamingRequest` (not under src): dict update semantics, replacing
any existing binding for the key in place, appending otherwise. -/
def put_header (headers : Headers) (key value : String) : Headers :=
  match headers with
  | [] => [(key, value)]
  | p :: t => if p.1 = key then (key, value) :: t else p :: put_header t key value

/-- Modelled from the spec: `request.put_all_headers(dict)` on
`AbstractNamingRequest` (not under src): update each pair in turn. -/
def put_all_headers (headers : Headers) (kvs : Headers) : Headers :=
  kvs.foldl (fun acc p => put_header acc p.1 p.2) headers

/-- Lookup of a header value, the dict read. -/
def get_header (headers : Headers) (key : String) : Option String :=
  (headers.find? (fun p => p.1 = key)).map Prod.snd

/-- Modelled from the spec: `get_group_name(service_name, group_name)` from
`naming_client_util` (not under src).  The spec states the composite key is
`group@@serviceName`, or the bare service name when the group is empty. -/
def get_group_name (service_name group_name : String) : String :=
  if group_name = "" then service_name
  else group_name ++ SERVICE_INFO_SPLITER ++ service_name

/-- The closed set of concrete naming response classes appearing in the
proxy, plus a catch-all for any other class decoded off the wire. -/
inductive RespClass where
  | instanceResponse
  | batchInstanceResponse
  | serviceListResponse
  | subscribeServiceResponse
  | otherResponse (name : String)
deriving Repr, DecidableEq

/-- The `issubclass(response.__class__, response_class)` check.  The naming
response classes form a flat set (none subclasses another), so on this
closed set the subclass test is equality of the class tag. -/
def issubclass (cls expected : RespClass) : Bool := cls = expected

/-- Modelled from the spec: the response envelope shared by the naming
responses (the response model classes are not under src): a result code,
a server-supplied error code and message, the concrete class tag, the
success flag, and the payload fields used by the proxy. -/
structure Response where
  resultCode : Nat
  errorCode : Nat
  message : String
  cls : RespClass
  success : Bool
  serviceInfo : Service
  count : Nat
  serviceNames : List String
deriving Repr, DecidableEq

/-- The request body variants built by the proxy, carrying the fields the
source passes to each request constructor (besides service and group name,
which live on the request itself). -/
inductive RequestBody where
  | instanceReq (namespaceId : String) (inst : Instance) (rtype : String)
  | batchInstanceReq (namespaceId : String) (insts : List Instance) (rtype : String)
  | serviceListReq (namespaceId : String) (pageNo pageSize : Nat)
  | subscribeServiceReq (namespaceId clusters : String) (subscribe : Bool)
deriving Repr, DecidableEq

/-- A naming request: the mutable header map plus the `serviceName` and
`groupName` fields read by `request_naming_server`, and the body. -/
structure Request where
  headers : Headers
  serviceName : String
  groupName : String
  body : RequestBody
deriving Repr, DecidableEq

/-- Outcome of the `rpc_client.request` call: a decoded response envelope,
a raised `NacosException`, or any other raised exception carrying its
string rendering `str(e)`. -/
inductive RpcOutcome where
  | ok (resp : Response)
  | nacosError (e : NacosException)
  | otherError (msg : String)
deriving Repr, DecidableEq

/-- The environment of one proxy call: the headers injected by
`inject_security_info` (external transport collaborator), the credentials
fetched from the provider, the current time in milliseconds, the
`base64.encodebytes(hmac.new(secret, data, sha1).digest()).decode()`
library primitive (external), the transport outcome as a function of the
dispatched request, and the client configuration fields read. -/
structure Env where
  securityHeaders : Headers
  credentials : Credentials
  nowMillis : Nat
  hmacSha1Base64 : String → String → String
  rpc : Request → RpcOutcome
  appName : String
  namespaceId : String

/-- Observable events of one proxy call, in program order. -/
inductive Ev where
  | cacheInstanceForRedo (serviceName groupName : String) (inst : Instance)
  | cacheInstancesForRedo (serviceName groupName : String) (insts : List Instance)
  | removeInstanceForRedo (serviceName groupName : String)
  | cacheSubscriberForRedo (key clusters : String)
  | removeSubscriberForRedo (key clusters : String)
  | rpcDispatch (req : Request)
  | logError (msg : String)
deriving Repr, DecidableEq

/-- The signing data string built by `request_naming_server`:
`str(get_current_time_millis()) + SERVICE_INFO_SPLITER + service_name`
when the composite service name is non-empty after stripping, else the
bare time string. -/
def sign_string (env : Env) (request : Request) : String :=
  let service_name := get_group_name request.serviceName request.groupName
  if ¬(service_name.trim = "") then
    toString env.nowMillis ++ SERVICE_INFO_SPLITER ++ service_name
  else
    toString env.nowMillis

/-- The header-mutation prefix of `request_naming_server`: inject the
transport security headers, then, when both access key id and secret are
present (Python truthiness: non-empty), put the `ak`, `data` and
`signature` headers, and the `Spas-SecurityToken` header when a token is
present. -/
def signRequest (env : Env) (request : Request) : Request :=
  let request :=
    { request with headers := put_all_headers request.headers env.securityHeaders }
  let credentials := env.credentials
  if ¬(credentials.accessKeyId = "") ∧ ¬(credentials.accessKeySecret = "") then
    let sign_str := sign_string env request
    let signing : Headers :=
      [("ak", credentials.accessKeyId),
       ("data", sign_str),
       ("signature",
         (env.hmacSha1Base64 credentials.accessKeySecret sign_str).trim)]
    let request := { request with headers := put_all_headers request.headers signing }
    if ¬(credentials.securityToken = "") then
      { request with
          headers := put_header request.headers "Spas-SecurityToken" credentials.securityToken }
    else
      request
  else
    request

/-- Embedding of `request_naming_server`: sign the request, dispatch it,
then validate the envelope: a non-200 result code raises
`NacosException(error_code, message)`; a class mismatch raises
`NacosException(SERVER_ERROR, " Server return invalid response")`; a
raised `NacosException` is logged and re-raised; any other exception is
logged and wrapped as
`NacosException(SERVER_ERROR, "Request nacos naming server failed: " + str(e))`. -/
def request_naming_server (env : Env) (request : Request) (response_class : RespClass) :
    List Ev × Except NacosException Response :=
  let request := signRequest env request
  match env.rpc request with
  | RpcOutcome.ok response =>
      if ¬(response.resultCode = 200) then
        let e : NacosException := ⟨response.errorCode, response.message⟩
        ([Ev.rpcDispatch request,
          Ev.logError ("failed to invoke nacos naming server : " ++ exceptionStr e)],
         Except.error e)
      else if issubclass response.cls response_class then
        ([Ev.rpcDispatch request], Except.ok response)
      else
        let e : NacosException := ⟨SERVER_ERROR, " Server return invalid response"⟩
        ([Ev.rpcDispatch request,
          Ev.logError ("failed to invoke nacos naming server : " ++ exceptionStr e)],
         Except.error e)
  | RpcOutcome.nacosError e =>
      ([Ev.rpcDispatch request,
        Ev.logError ("failed to invoke nacos naming server : " ++ exceptionStr e)],
       Except.error e)
  | RpcOutcome.otherError msg =>
      ([Ev.rpcDispatch request,
        Ev.logError ("failed to invoke nacos naming server : " ++ msg)],
       Except.error ⟨SERVER_ERROR, "Request nacos naming server failed: " ++ msg⟩)

/-- The `InstanceRequest` built by `register_instance`. -/
def register_request (env : Env) (service_name group_name : String)
    (inst : Instance) : Request :=
  { headers := [],
    serviceName := service_name,
    groupName := group_name,
    body := RequestBody.instanceReq env.namespaceId inst REGISTER_INSTANCE }

/-- Embedding of `register_instance`: cache the redo entry, build the
request, send it, and return the success flag of the response (a raised
exception propagates). -/
def register_instance (env : Env) (service_name group_name : String)
    (inst : Instance) : List Ev × Except NacosException Bool :=
  let r := request_naming_server env
    (register_request env service_name group_name inst) RespClass.instanceResponse
  (Ev.cacheInstanceForRedo service_name group_name inst :: r.1,
   Except.map (fun response => response.success) r.2)

/-- The `BatchInstanceRequest` built by `batch_register_instance`. -/
def batch_register_request (env : Env) (service_name group_name : String)
    (instances : List Instance) : Request :=
  { headers := [],
    serviceName := service_name,
    groupName := group_name,
    body := RequestBody.batchInstanceReq env.namespaceId instances BATCH_REGISTER_INSTANCE }

/-- Embedding of `batch_register_instance`: cache the redo entries, send
the batch request, and return the success flag of the response. -/
def batch_register_instance (env : Env) (service_name group_name : String)
    (instances : List Instance) : List Ev × Except NacosException Bool :=
  let r := request_naming_server env
    (batch_register_request env service_name group_name instances)
    RespClass.batchInstanceResponse
  (Ev.cacheInstancesForRedo service_name group_name instances :: r.1,
   Except.map (fun response => response.success) r.2)

/-- The `InstanceRequest` built by `deregister_instance`. -/
def deregister_request (env : Env) (service_name group_name : String)
    (inst : Instance) : Request :=
  { headers := [],
    serviceName := service_name,
    groupName := group_name,
    body := RequestBody.instanceReq env.namespaceId inst DE_REGISTER_INSTANCE }

/-- Embedding of `deregister_instance`: send the request, then remove the
redo entry and return the success flag; a raised exception propagates
before the removal is reached. -/
def deregister_instance (env : Env) (service_name group_name : String)
    (inst : Instance) : List Ev × Except NacosException Bool :=
  let r := request_naming_server env
    (deregister_request env service_name group_name inst) RespClass.instanceResponse
  match r.2 with
  | Except.ok response =>
      (r.1 ++ [Ev.removeInstanceForRedo service_name group_name],
       Except.ok response.success)
  | Except.error e => (r.1, Except.error e)

/-- The format string of the error log emitted when a subscribe response
reports failure (the lazily formatted arguments are elided). -/
def SUBSCRIBE_FAIL_LOG : String :=
  "failed to subscribe service_name:%s, group_name:%s, clusters:%s, namespace:%s, response:%s"

/-- The `SubscribeServiceRequest` built by `subscribe`, including the
`app` header put on it before dispatch. -/
def subscribe_request (env : Env) (service_name group_name clusters : String) : Request :=
  { headers := put_header [] "app" env.appName,
    serviceName := service_name,
    groupName := group_name,
    body := RequestBody.subscribeServiceReq env.namespaceId clusters true }

/-- Embedding of `subscribe`: cache the redo subscription keyed by the
composite group name, send the request with the `app` header, and on a
non-successful response log an error and return no snapshot; otherwise
return the service snapshot.  A raised exception propagates. -/
def subscribe (env : Env) (service_name group_name clusters : String) :
    List Ev × Except NacosException (Option Service) :=
  let pre := Ev.cacheSubscriberForRedo (get_group_name service_name group_name) clusters
  let r := request_naming_server env
    (subscribe_request env service_name group_name clusters)
    RespClass.subscribeServiceResponse
  match r.2 with
  | Except.error e => (pre :: r.1, Except.error e)
  | Except.ok response =>
      if response.success = false then
        ((pre :: r.1) ++ [Ev.logError SUBSCRIBE_FAIL_LOG], Except.ok none)
      else
        (pre :: r.1, Except.ok (some response.serviceInfo))

/-- The `SubscribeServiceRequest` built by `unsubscribe` (no `app` header,
subscribe flag false). -/
def unsubscribe_request (env : Env) (service_name group_name clusters : String) : Request :=
  { headers := [],
    serviceName := service_name,
    groupName := group_name,
    body := RequestBody.subscribeServiceReq env.namespaceId clusters false }

/-- Embedding of `unsubscribe`: remove the redo subscription keyed by the
composite group name, then send the request, discarding the response. -/
def unsubscribe (env : Env) (service_name group_name clusters : String) :
    List Ev × Except NacosException Unit :=
  let pre := Ev.removeSubscriberForRedo (get_group_name service_name group_name) clusters
  let r := request_naming_server env
    (unsubscribe_request env service_name group_name clusters)
    RespClass.subscribeServiceResponse
  match r.2 with
  | Except.error e => (pre :: r.1, Except.error e)
  | Except.ok _ => (pre :: r.1, Except.ok ())

/-! ### Header-map lemmas -/

/-- Looking up the key just put returns the value just put. -/
theorem get_header_put_same (hs : Headers) (k v : String) :
    get_header (put_header hs k v) k = some v := by
  induction hs with
  | nil => simp [get_header, put_header, List.find?_cons]
  | cons p t ih =>
    by_cases hp : p.1 = k
    · simp [get_header, put_header, List.find?_cons, hp]
    · simpa [get_header, put_header, List.find?_cons, hp] using ih

/-- Putting a different key leaves a lookup unchanged. -/
theorem get_header_put_ne (hs : Headers) (k' v k : String) (h : ¬(k' = k)) :
    get_header (put_header hs k' v) k = get_header hs k := by
  induction hs with
  | nil => simp [get_header, put_header, List.find?_cons, h]
  | cons p t ih =>
    by_cases hp : p.1 = k'
    · have hpk : ¬(p.1 = k) := by rw [hp]; exact h
      simp [get_header, put_header, List.find?_cons, hp, h, hpk]
    · by_cases hk : p.1 = k
      · have hkk : ¬(k = k') := fun hh => h hh.symm
        simp [get_header, put_header, List.find?_cons, hp, hk, hkk]
      · simpa [get_header, put_header, List.find?_cons, hp, hk] using ih

/-- Putting a batch of pairs none of which uses the key leaves a lookup
unchanged. -/
theorem get_header_put_all_not_mem (kvs : Headers) (hs : Headers) (k : String)
    (h : ∀ p ∈ kvs, ¬(p.1 = k)) :
    get_header (put_all_headers hs kvs) k = get_header hs k := by
  induction kvs generalizing hs with
  | nil => rfl
  | cons p t ih =>
    have hstep : put_all_headers hs (p :: t) = put_all_headers (put_header hs p.1 p.2) t := rfl
    rw [hstep, ih _ (fun q hq => h q (List.mem_cons_of_mem p hq)),
      get_header_put_ne _ _ _ _ (h p (List.mem_cons_self p t))]

/-! ### Trace and result shape of `request_naming_server` -/

/-- The trace of one `request_naming_server` call is the dispatch of the
signed request followed only by error-log events. -/
theorem request_naming_server_trace (env : Env) (request : Request)
    (response_class : RespClass) :
    ∃ rest, (request_naming_server env request response_class).1 =
        Ev.rpcDispatch (signRequest env request) :: rest ∧
      ∀ e ∈ rest, ∃ m, e = Ev.logError m := by
  cases hr : env.rpc (signRequest env request) with
  | ok response =>
    by_cases h200 : response.resultCode = 200
    · by_cases hcls : issubclass response.cls response_class
      · exact ⟨[], by simp [request_naming_server, hr, h200, hcls], by simp⟩
      · refine ⟨[Ev.logError ("failed to invoke nacos naming server : " ++
          exceptionStr ⟨SERVER_ERROR, " Server return invalid response"⟩)],
          by simp [request_naming_server, hr, h200, hcls], ?_⟩
        intro e he
        simp only [List.mem_singleton] at he
        exact ⟨_, he⟩
    · refine ⟨[Ev.logError ("failed to invoke nacos naming server : " ++
        exceptionStr ⟨response.errorCode, response.message⟩)],
        by simp [request_naming_server, hr, h200], ?_⟩
      intro e he
      simp only [List.mem_singleton] at he
      exact ⟨_, he⟩
  | nacosError e =>
    refine ⟨[Ev.logError ("failed to invoke nacos naming server : " ++ exceptionStr e)],
      by simp [request_naming_server, hr], ?_⟩
    intro x hx
    simp only [List.mem_singleton] at hx
    exact ⟨_, hx⟩
  | otherError msg =>
    refine ⟨[Ev.logError ("failed to invoke nacos naming server : " ++ msg)],
      by simp [request_naming_server, hr], ?_⟩
    intro x hx
    simp only [List.mem_singleton] at hx
    exact ⟨_, hx⟩

/-- A normal return of `request_naming_server` forces a decoded response
with result code 200 and a matching class, and a trace of exactly the
dispatch event. -/
theorem request_naming_server_ok (env : Env) (request : Request)
    (response_class : RespClass) (resp : Response)
    (h : (request_naming_server env request response_class).2 = Except.ok resp) :
    env.rpc (signRequest env request) = RpcOutcome.ok resp ∧
    resp.resultCode = 200 ∧ issubclass resp.cls response_class = true ∧
    (request_naming_server env request response_class).1 =
      [Ev.rpcDispatch (signRequest env request)] := by
  cases hr : env.rpc (signRequest env request) with
  | ok response =>
    by_cases h200 : response.resultCode = 200
    · by_cases hcls : issubclass response.cls response_class
      · have hresp : response = resp := by
          have := h
          simp [request_naming_server, hr, h200, hcls] at this
          exact this
        subst hresp
        exact ⟨rfl, h200, hcls, by simp [request_naming_server, hr, h200, hcls]⟩
      · exact absurd h (by simp [request_naming_server, hr, h200, hcls])
    · exact absurd h (by simp [request_naming_server, hr, h200])
  | nacosError e => exact absurd h (by simp [request_naming_server, hr])
  | otherError msg => exact absurd h (by simp [request_naming_server, hr])

/-- Signing touches only the `ak`, `data`, `signature` and
`Spas-SecurityToken` keys: any other lookup on the signed request sees
exactly the initial headers updated by the injected security headers. -/
theorem get_header_signRequest_other (env : Env) (request : Request) (k : String)
    (hak : ¬(k = "ak")) (hdata : ¬(k = "data")) (hsig : ¬(k = "signature"))
    (htok : ¬(k = "Spas-SecurityToken")) :
    get_header (signRequest env request).headers k =
      get_header (put_all_headers request.headers env.securityHeaders) k := by
  unfold signRequest
  by_cases hc : ¬(env.credentials.accessKeyId = "") ∧ ¬(env.credentials.accessKeySecret = "")
  · rw [if_pos hc]
    by_cases ht : ¬(env.credentials.securityToken = "")
    · rw [if_pos ht]
      simp only
      rw [get_header_put_ne _ _ _ _ (fun hh => htok hh.symm)]
      have hstep : ∀ hs : Headers, ∀ a b c : String × String,
          put_all_headers hs [a, b, c] = put_header (put_header (put_header hs a.1 a.2) b.1 b.2) c.1 c.2 :=
        fun hs a b c => rfl
      rw [hstep]
      rw [get_header_put_ne _ _ _ _ (fun hh => hsig hh.symm),
        get_header_put_ne _ _ _ _ (fun hh => hdata hh.symm),
        get_header_put_ne _ _ _ _ (fun hh => hak hh.symm)]
    · rw [if_neg ht]
      simp only
      have hstep : ∀ hs : Headers, ∀ a b c : String × String,
          put_all_headers hs [a, b, c] = put_header (put_header (put_header hs a.1 a.2) b.1 b.2) c.1 c.2 :=
        fun hs a b c => rfl
      rw [hstep]
      rw [get_header_put_ne _ _ _ _ (fun hh => hsig hh.symm),
        get_header_put_ne _ _ _ _ (fun hh => hdata hh.symm),
        get_header_put_ne _ _ _ _ (fun hh => hak hh.symm)]
  · rw [if_neg hc]

/-! ### Shared concrete fixtures used by the witnesses -/

/-- A concrete service snapshot. -/
def serviceW : Service :=
  { name := "svc-a", groupName := "g", clusters := "", hosts := [] }

/-- A concrete instance, the register scenario endpoint of the spec. -/
def instW : Instance :=
  { ip := "10.0.0.1", port := 8080, weight := 1, healthy := true,
    enabled := true, ephemeral := true, metadata := [], clusterName := "" }

/-- A concrete environment around a fixed transport outcome: no injected
security headers, no credentials, a fixed clock, a constant HMAC
primitive, and a transport that always yields the given outcome. -/
def baseEnv (out : RpcOutcome) : Env :=
  { securityHeaders := [],
    credentials := ⟨"", "", ""⟩,
    nowMillis := 1700000000000,
    hmacSha1Base64 := fun _ _ => "",
    rpc := fun _ => out,
    appName := "demo-app",
    namespaceId := "public" }

/-- A concrete request used to exercise `request_naming_server` alone. -/
def reqW : Request :=
  { headers := [], serviceName := "svc-a", groupName := "g",
    body := RequestBody.serviceListReq "public" 1 10 }

/-! ### The claims -/

/-- Claim C2: for every response whose envelope result code is not 200,
`request_naming_server` raises an application-level `NacosException`
carrying the server-supplied error code and message. -/
theorem c2_non200_application_error (env : Env) (request : Request)
    (response_class : RespClass) (resp : Response)
    (hrpc : env.rpc (signRequest env request) = RpcOutcome.ok resp)
    (hcode : ¬(resp.resultCode = 200)) :
    (request_naming_server env request response_class).2 =
      Except.error ⟨resp.errorCode, resp.message⟩ := by
  simp [request_naming_server, hrpc, hcode]

/-- The response envelope of the C2 scenario: result code 500, message
overflow, server-supplied error code 500. -/
def respC2 : Response :=
  { resultCode := 500, errorCode := 500, message := "overflow",
    cls := RespClass.serviceListResponse, success := false,
    serviceInfo := serviceW, count := 0, serviceNames := [] }

/-- Witness for C2 at the scenario input: a response with result code 500
and message overflow makes the send fail with code 500, message overflow. -/
theorem c2_witness :
    (request_naming_server (baseEnv (RpcOutcome.ok respC2)) reqW
        RespClass.serviceListResponse).2 =
      Except.error ⟨500, "overflow"⟩ :=
  c2_non200_application_error (baseEnv (RpcOutcome.ok respC2)) reqW
    RespClass.serviceListResponse respC2 rfl (by decide)

/-- Claim C3: every transport-level fault that is not already a
`NacosException` is caught and re-wrapped as a uniform `NacosException`
with the `SERVER_ERROR` code, the caller never sees the original
exception type, the original message is preserved in the wrapped detail,
and the original message is logged. -/
theorem c3_transport_fault_wrapped (env : Env) (request : Request)
    (response_class : RespClass) (msg : String)
    (hrpc : env.rpc (signRequest env request) = RpcOutcome.otherError msg) :
    (request_naming_server env request response_class).2 =
      Except.error ⟨SERVER_ERROR, "Request nacos naming server failed: " ++ msg⟩ ∧
    Ev.logError ("failed to invoke nacos naming server : " ++ msg) ∈
      (request_naming_server env request response_class).1 := by
  simp [request_naming_server, hrpc]

/-- Witness for C3 at a concrete transport fault. -/
theorem c3_witness :
    (request_naming_server (baseEnv (RpcOutcome.otherError "connection reset")) reqW
        RespClass.serviceListResponse).2 =
      Except.error ⟨SERVER_ERROR,
        "Request nacos naming server failed: " ++ "connection reset"⟩ ∧
    Ev.logError ("failed to invoke nacos naming server : " ++ "connection reset") ∈
      (request_naming_server (baseEnv (RpcOutcome.otherError "connection reset")) reqW
        RespClass.serviceListResponse).1 :=
  c3_transport_fault_wrapped (baseEnv (RpcOutcome.otherError "connection reset")) reqW
    RespClass.serviceListResponse "connection reset" rfl

/-- Claim C5: on a 200 result code, `request_naming_server` returns the
response exactly when its concrete class matches the expected response
class, and otherwise raises the invalid-response protocol error. -/
theorem c5_response_type_check (env : Env) (request : Request)
    (response_class : RespClass) (resp : Response)
    (hrpc : env.rpc (signRequest env request) = RpcOutcome.ok resp)
    (hcode : resp.resultCode = 200) :
    (request_naming_server env request response_class).2 =
      (if issubclass resp.cls response_class then Except.ok resp
       else Except.error ⟨SERVER_ERROR, " Server return invalid response"⟩) := by
  by_cases hcls : issubclass resp.cls response_class
  · simp [request_naming_server, hrpc, hcode, hcls]
  · simp [request_naming_server, hrpc, hcode, hcls]

/-- The response envelope of the C5 scenario: result code 200 but a class
that mismatches the expected `serviceListResponse`. -/
def respC5 : Response :=
  { resultCode := 200, errorCode := 0, message := "",
    cls := RespClass.subscribeServiceResponse, success := true,
    serviceInfo := serviceW, count := 0, serviceNames := [] }

/-- Witness for C5 at the mismatch scenario: result code 200 with a
mismatching class raises the invalid-response protocol error. -/
theorem c5_witness :
    (request_naming_server (baseEnv (RpcOutcome.ok respC5)) reqW
        RespClass.serviceListResponse).2 =
      Except.error ⟨SERVER_ERROR, " Server return invalid response"⟩ :=
  (c5_response_type_check (baseEnv (RpcOutcome.ok respC5)) reqW
    RespClass.serviceListResponse respC5 rfl rfl).trans rfl

/-- Unfolding of a three-pair batch update. -/
theorem put_all_headers_triple (hs : Headers) (a b c : String × String) :
    put_all_headers hs [a, b, c] =
      put_header (put_header (put_header hs a.1 a.2) b.1 b.2) c.1 c.2 := rfl

/-- Replacing the header map of a request does not change its sign
string, which reads only the service and group names. -/
theorem sign_string_update_headers (env : Env) (request : Request) (h : Headers) :
    sign_string env { request with headers := h } = sign_string env request := rfl

/-- Claim C4: with a complete credential pair, the signing data string is
the current milliseconds, joined to the composite service key by the
spliter when that key is non-empty after stripping; the `signature`
header is the stripped base64 HMAC-SHA1 of that string under the secret;
the `ak` header carries the key id; and the request is dispatched in that
signed form. -/
theorem c4_signing_headers (env : Env) (request : Request) (response_class : RespClass)
    (hak : ¬(env.credentials.accessKeyId = ""))
    (hsk : ¬(env.credentials.accessKeySecret = "")) :
    sign_string env request =
      (if ¬((get_group_name request.serviceName request.groupName).trim = "") then
        toString env.nowMillis ++ "@@" ++ get_group_name request.serviceName request.groupName
       else toString env.nowMillis) ∧
    get_header (signRequest env request).headers "data" = some (sign_string env request) ∧
    get_header (signRequest env request).headers "signature" =
      some ((env.hmacSha1Base64 env.credentials.accessKeySecret (sign_string env request)).trim) ∧
    get_header (signRequest env request).headers "ak" = some env.credentials.accessKeyId ∧
    Ev.rpcDispatch (signRequest env request) ∈
      (request_naming_server env request response_class).1 := by
  have hne_tok_data : ¬("Spas-SecurityToken" = "data") := by decide
  have hne_tok_sig : ¬("Spas-SecurityToken" = "signature") := by decide
  have hne_tok_ak : ¬("Spas-SecurityToken" = "ak") := by decide
  have hne_sig_data : ¬("signature" = "data") := by decide
  have hne_sig_ak : ¬("signature" = "ak") := by decide
  have hne_data_ak : ¬("data" = "ak") := by decide
  have hput : (signRequest env request).headers =
      (if ¬(env.credentials.securityToken = "") then
        put_header (put_all_headers
            (put_all_headers request.headers env.securityHeaders)
            [("ak", env.credentials.accessKeyId),
             ("data", sign_string env request),
             ("signature",
               (env.hmacSha1Base64 env.credentials.accessKeySecret (sign_string env request)).trim)])
          "Spas-SecurityToken" env.credentials.securityToken
       else
        put_all_headers
          (put_all_headers request.headers env.securityHeaders)
          [("ak", env.credentials.accessKeyId),
           ("data", sign_string env request),
           ("signature",
             (env.hmacSha1Base64 env.credentials.accessKeySecret (sign_string env request)).trim)]) := by
    by_cases ht : ¬(env.credentials.securityToken = "")
    · simp [signRequest, hak, hsk, ht, sign_string_update_headers]
    · simp [signRequest, hak, hsk, ht, sign_string_update_headers]
  refine ⟨rfl, ?_, ?_, ?_, ?_⟩
  · rw [hput]
    by_cases ht : ¬(env.credentials.securityToken = "")
    · rw [if_pos ht, get_header_put_ne _ _ _ _ hne_tok_data, put_all_headers_triple,
        get_header_put_ne _ _ _ _ hne_sig_data, get_header_put_same]
    · rw [if_neg ht, put_all_headers_triple,
        get_header_put_ne _ _ _ _ hne_sig_data, get_header_put_same]
  · rw [hput]
    by_cases ht : ¬(env.credentials.securityToken = "")
    · rw [if_pos ht, get_header_put_ne _ _ _ _ hne_tok_sig, put_all_headers_triple,
        get_header_put_same]
    · rw [if_neg ht, put_all_headers_triple, get_header_put_same]
  · rw [hput]
    by_cases ht : ¬(env.credentials.securityToken = "")
    · rw [if_pos ht, get_header_put_ne _ _ _ _ hne_tok_ak, put_all_headers_triple,
        get_header_put_ne _ _ _ _ hne_sig_ak, get_header_put_ne _ _ _ _ hne_data_ak,
        get_header_put_same]
    · rw [if_neg ht, put_all_headers_triple,
        get_header_put_ne _ _ _ _ hne_sig_ak, get_header_put_ne _ _ _ _ hne_data_ak,
        get_header_put_same]
  · obtain ⟨rest, htr, _⟩ := request_naming_server_trace env request response_class
    rw [htr]
    exact List.mem_cons_self _ _

/-- A concrete environment with a complete credential pair and a security
token, used to evaluate the signing path. -/
def envC4 : Env :=
  { securityHeaders := [("h", "v")],
    credentials := ⟨"ak-id", "ak-secret", "tok"⟩,
    nowMillis := 1700000000000,
    hmacSha1Base64 := fun _ _ => "c2ln\n",
    rpc := fun _ => RpcOutcome.nacosError ⟨1, "e"⟩,
    appName := "demo-app",
    namespaceId := "public" }

/-- Witness for C4 at a concrete signed request. -/
theorem c4_witness :
    sign_string envC4 reqW =
      (if ¬((get_group_name reqW.serviceName reqW.groupName).trim = "") then
        toString envC4.nowMillis ++ "@@" ++ get_group_name reqW.serviceName reqW.groupName
       else toString envC4.nowMillis) ∧
    get_header (signRequest envC4 reqW).headers "data" = some (sign_string envC4 reqW) ∧
    get_header (signRequest envC4 reqW).headers "signature" =
      some ((envC4.hmacSha1Base64 envC4.credentials.accessKeySecret (sign_string envC4 reqW)).trim) ∧
    get_header (signRequest envC4 reqW).headers "ak" = some envC4.credentials.accessKeyId ∧
    Ev.rpcDispatch (signRequest envC4 reqW) ∈
      (request_naming_server envC4 reqW RespClass.instanceResponse).1 :=
  c4_signing_headers envC4 reqW RespClass.instanceResponse (by decide) (by decide)

/-- Claim C7: with an absent or incomplete credential pair no signing
headers are added (the signed request headers are exactly the initial
headers updated by the injected security headers, and any key absent
from both stays absent), and the request is still dispatched. -/
theorem c7_unsigned_request (env : Env) (request : Request)
    (response_class : RespClass) (k : String)
    (hcred : env.credentials.accessKeyId = "" ∨ env.credentials.accessKeySecret = "")
    (hinit : get_header request.headers k = none)
    (hsec : ∀ p ∈ env.securityHeaders, ¬(p.1 = k)) :
    (signRequest env request).headers = put_all_headers request.headers env.securityHeaders ∧
    get_header (signRequest env request).headers k = none ∧
    Ev.rpcDispatch (signRequest env request) ∈
      (request_naming_server env request response_class).1 := by
  have hniff : ¬(¬(env.credentials.accessKeyId = "") ∧
      ¬(env.credentials.accessKeySecret = "")) := by
    rcases hcred with h | h
    · exact fun hc => hc.1 h
    · exact fun hc => hc.2 h
  have h1 : (signRequest env request).headers =
      put_all_headers request.headers env.securityHeaders := by
    simp [signRequest, hniff]
  refine ⟨h1, ?_, ?_⟩
  · rw [h1, get_header_put_all_not_mem _ _ _ hsec, hinit]
  · obtain ⟨rest, htr, _⟩ := request_naming_server_trace env request response_class
    rw [htr]
    exact List.mem_cons_self _ _

/-- Witness for C7 with empty credentials: the `ak` key stays absent and
the request is dispatched unsigned. -/
theorem c7_witness :
    (signRequest (baseEnv (RpcOutcome.otherError "io error")) reqW).headers =
      put_all_headers reqW.headers
        (baseEnv (RpcOutcome.otherError "io error")).securityHeaders ∧
    get_header (signRequest (baseEnv (RpcOutcome.otherError "io error")) reqW).headers
      "ak" = none ∧
    Ev.rpcDispatch (signRequest (baseEnv (RpcOutcome.otherError "io error")) reqW) ∈
      (request_naming_server (baseEnv (RpcOutcome.otherError "io error")) reqW
        RespClass.serviceListResponse).1 :=
  c7_unsigned_request (baseEnv (RpcOutcome.otherError "io error")) reqW
    RespClass.serviceListResponse "ak" (Or.inl rfl) rfl (by simp [baseEnv])

/-- Claim C1: the register redo entry is cached strictly before the RPC
dispatch, while the deregister redo removal never precedes the dispatch
and happens only when the RPC call returned normally. -/
theorem c1_redo_ordering (env : Env) (s g : String) (inst : Instance) :
    (∃ rest, (register_instance env s g inst).1 =
        Ev.cacheInstanceForRedo s g inst ::
          Ev.rpcDispatch (signRequest env (register_request env s g inst)) :: rest) ∧
    (∀ k, (deregister_instance env s g inst).1.get? k =
          some (Ev.removeInstanceForRedo s g) →
        0 < k ∧ (deregister_instance env s g inst).1.get? 0 =
          some (Ev.rpcDispatch (signRequest env (deregister_request env s g inst)))) ∧
    (Ev.removeInstanceForRedo s g ∈ (deregister_instance env s g inst).1 →
      ∃ resp, env.rpc (signRequest env (deregister_request env s g inst)) =
          RpcOutcome.ok resp ∧
        resp.resultCode = 200 ∧ issubclass resp.cls RespClass.instanceResponse = true) := by
  obtain ⟨rest1, htr1, _⟩ := request_naming_server_trace env
    (register_request env s g inst) RespClass.instanceResponse
  have hreg : (register_instance env s g inst).1 =
      Ev.cacheInstanceForRedo s g inst ::
        (request_naming_server env (register_request env s g inst)
          RespClass.instanceResponse).1 := rfl
  obtain ⟨rest2, htr2, hlog2⟩ := request_naming_server_trace env
    (deregister_request env s g inst) RespClass.instanceResponse
  refine ⟨⟨rest1, by rw [hreg, htr1]⟩, ?_⟩
  cases hout : (request_naming_server env (deregister_request env s g inst)
      RespClass.instanceResponse).2 with
  | ok resp =>
    obtain ⟨hrpc, hcode, hcls, htrace⟩ := request_naming_server_ok _ _ _ _ hout
    have hd1 : (deregister_instance env s g inst).1 =
        [Ev.rpcDispatch (signRequest env (deregister_request env s g inst)),
         Ev.removeInstanceForRedo s g] := by
      simp only [deregister_instance]
      rw [hout, htrace]
      rfl
    refine ⟨?_, fun _ => ⟨resp, hrpc, hcode, hcls⟩⟩
    intro k hk
    match k, hk with
    | 0, hk =>
      rw [hd1] at hk
      exact absurd hk (by simp)
    | Nat.succ n, hk =>
      refine ⟨Nat.succ_pos n, ?_⟩
      rw [hd1]
      rfl
  | error e =>
    have hd1 : (deregister_instance env s g inst).1 =
        (request_naming_server env (deregister_request env s g inst)
          RespClass.instanceResponse).1 := by
      simp only [deregister_instance]
      rw [hout]
    have hnomem : Ev.removeInstanceForRedo s g ∉ (deregister_instance env s g inst).1 := by
      rw [hd1, htr2]
      intro hmem
      rcases List.mem_cons.mp hmem with hh | hh
      · exact absurd hh (by simp)
      · obtain ⟨m, hm⟩ := hlog2 _ hh
        exact absurd hm (by simp)
    refine ⟨?_, fun hmem => absurd hmem hnomem⟩
    intro k hk
    exact absurd (List.get?_mem hk) hnomem

/-- Claim C8: a deregister call whose RPC raises never reaches the redo
removal, and the exception propagates unchanged. -/
theorem c8_deregister_error_keeps_redo (env : Env) (s g : String) (inst : Instance)
    (e : NacosException)
    (herr : (request_naming_server env (deregister_request env s g inst)
        RespClass.instanceResponse).2 = Except.error e) :
    Ev.removeInstanceForRedo s g ∉ (deregister_instance env s g inst).1 ∧
    (deregister_instance env s g inst).2 = Except.error e := by
  have hd1 : (deregister_instance env s g inst).1 =
      (request_naming_server env (deregister_request env s g inst)
        RespClass.instanceResponse).1 := by
    simp only [deregister_instance]
    rw [herr]
  have hd2 : (deregister_instance env s g inst).2 = Except.error e := by
    simp only [deregister_instance]
    rw [herr]
  obtain ⟨rest, htr, hlog⟩ := request_naming_server_trace env
    (deregister_request env s g inst) RespClass.instanceResponse
  refine ⟨?_, hd2⟩
  rw [hd1, htr]
  intro hmem
  rcases List.mem_cons.mp hmem with hh | hh
  · exact absurd hh (by simp)
  · obtain ⟨m, hm⟩ := hlog _ hh
    exact absurd hm (by simp)

/-- Witness for C8 at a concrete transport-raised `NacosException`. -/
theorem c8_witness :
    Ev.removeInstanceForRedo "svc-a" "g" ∉
      (deregister_instance (baseEnv (RpcOutcome.nacosError ⟨403, "forbidden"⟩))
        "svc-a" "g" instW).1 ∧
    (deregister_instance (baseEnv (RpcOutcome.nacosError ⟨403, "forbidden"⟩))
        "svc-a" "g" instW).2 = Except.error ⟨403, "forbidden"⟩ :=
  c8_deregister_error_keeps_redo (baseEnv (RpcOutcome.nacosError ⟨403, "forbidden"⟩))
    "svc-a" "g" instW ⟨403, "forbidden"⟩ rfl

/-- Claim C9: a deregister call whose RPC returns result code 200 with a
matching class removes the redo entry regardless of the success flag and
returns that flag. -/
theorem c9_deregister_removal_on_200 (env : Env) (s g : String) (inst : Instance)
    (resp : Response)
    (hrpc : env.rpc (signRequest env (deregister_request env s g inst)) =
      RpcOutcome.ok resp)
    (hcode : resp.resultCode = 200)
    (hcls : resp.cls = RespClass.instanceResponse) :
    (deregister_instance env s g inst).1 =
      [Ev.rpcDispatch (signRequest env (deregister_request env s g inst)),
       Ev.removeInstanceForRedo s g] ∧
    (deregister_instance env s g inst).2 = Except.ok resp.success := by
  have hr2 : (request_naming_server env (deregister_request env s g inst)
      RespClass.instanceResponse).2 = Except.ok resp := by
    simp [request_naming_server, hrpc, hcode, hcls, issubclass]
  have htr : (request_naming_server env (deregister_request env s g inst)
      RespClass.instanceResponse).1 =
      [Ev.rpcDispatch (signRequest env (deregister_request env s g inst))] := by
    simp [request_naming_server, hrpc, hcode, hcls, issubclass]
  constructor
  · simp only [deregister_instance]
    rw [hr2, htr]
    rfl
  · simp only [deregister_instance]
    rw [hr2]

/-- The response envelope of the C9 scenario: result code 200, matching
class, success flag false. -/
def respC9 : Response :=
  { resultCode := 200, errorCode := 0, message := "",
    cls := RespClass.instanceResponse, success := false,
    serviceInfo := serviceW, count := 0, serviceNames := [] }

/-- Witness for C9: even with success flag false the redo entry removal
event is emitted and the flag is returned. -/
theorem c9_witness :
    (deregister_instance (baseEnv (RpcOutcome.ok respC9)) "svc-a" "g" instW).1 =
      [Ev.rpcDispatch (signRequest (baseEnv (RpcOutcome.ok respC9))
          (deregister_request (baseEnv (RpcOutcome.ok respC9)) "svc-a" "g" instW)),
       Ev.removeInstanceForRedo "svc-a" "g"] ∧
    (deregister_instance (baseEnv (RpcOutcome.ok respC9)) "svc-a" "g" instW).2 =
      Except.ok false :=
  c9_deregister_removal_on_200 (baseEnv (RpcOutcome.ok respC9)) "svc-a" "g" instW
    respC9 rfl rfl rfl

/-- Claim C6: a subscribe call whose RPC completes with result code 200
and a matching class never raises: on success flag false it returns no
snapshot and appends the subscribe-failure error log, on success flag
true it returns the service snapshot with no extra log. -/
theorem c6_subscribe_failure_nonfatal (env : Env) (s g cl : String) (resp : Response)
    (hrpc : env.rpc (signRequest env (subscribe_request env s g cl)) =
      RpcOutcome.ok resp)
    (hcode : resp.resultCode = 200)
    (hcls : resp.cls = RespClass.subscribeServiceResponse) :
    (subscribe env s g cl).2 =
      Except.ok (if resp.success then some resp.serviceInfo else none) ∧
    (subscribe env s g cl).1 =
      [Ev.cacheSubscriberForRedo (get_group_name s g) cl,
       Ev.rpcDispatch (signRequest env (subscribe_request env s g cl))] ++
      (if resp.success then [] else [Ev.logError SUBSCRIBE_FAIL_LOG]) := by
  have hr2 : (request_naming_server env (subscribe_request env s g cl)
      RespClass.subscribeServiceResponse).2 = Except.ok resp := by
    simp [request_naming_server, hrpc, hcode, hcls, issubclass]
  have htr : (request_naming_server env (subscribe_request env s g cl)
      RespClass.subscribeServiceResponse).1 =
      [Ev.rpcDispatch (signRequest env (subscribe_request env s g cl))] := by
    simp [request_naming_server, hrpc, hcode, hcls, issubclass]
  cases hsucc : resp.success with
  | false =>
    constructor
    · simp only [subscribe]
      rw [hr2]
      simp [hsucc]
    · simp only [subscribe]
      rw [hr2]
      simp only [hsucc]
      rw [htr]
      simp
  | true =>
    constructor
    · simp only [subscribe]
      rw [hr2]
      simp [hsucc]
    · simp only [subscribe]
      rw [hr2]
      simp only [hsucc]
      rw [htr]
      simp

/-- The response envelope of the C6 scenario: result code 200, matching
class, success flag false. -/
def respC6 : Response :=
  { resultCode := 200, errorCode := 0, message := "",
    cls := RespClass.subscribeServiceResponse, success := false,
    serviceInfo := serviceW, count := 0, serviceNames := [] }

/-- Witness for C6: a failed subscribe response yields no snapshot plus
the error log, and no exception. -/
theorem c6_witness :
    (subscribe (baseEnv (RpcOutcome.ok respC6)) "svc-a" "g" "c1").2 = Except.ok none ∧
    (subscribe (baseEnv (RpcOutcome.ok respC6)) "svc-a" "g" "c1").1 =
      [Ev.cacheSubscriberForRedo (get_group_name "svc-a" "g") "c1",
       Ev.rpcDispatch (signRequest (baseEnv (RpcOutcome.ok respC6))
         (subscribe_request (baseEnv (RpcOutcome.ok respC6)) "svc-a" "g" "c1")),
       Ev.logError SUBSCRIBE_FAIL_LOG] := by
  have h := c6_subscribe_failure_nonfatal (baseEnv (RpcOutcome.ok respC6))
    "svc-a" "g" "c1" respC6 rfl rfl rfl
  simpa [respC6] using h

/-- Claim C10: the subscribe request carries the `app` header with the
configured application name, also at dispatch time; the unsubscribe
request is dispatched without that header; and the two requests share the
same shape apart from the subscribe flag. -/
theorem c10_subscribe_app_header (env : Env) (s g cl : String)
    (hsec : ∀ p ∈ env.securityHeaders, ¬(p.1 = "app")) :
    get_header (subscribe_request env s g cl).headers "app" = some env.appName ∧
    get_header (signRequest env (subscribe_request env s g cl)).headers "app" =
      some env.appName ∧
    get_header (signRequest env (unsubscribe_request env s g cl)).headers "app" = none ∧
    Ev.rpcDispatch (signRequest env (unsubscribe_request env s g cl)) ∈
      (unsubscribe env s g cl).1 ∧
    (subscribe_request env s g cl).serviceName =
      (unsubscribe_request env s g cl).serviceName ∧
    (subscribe_request env s g cl).groupName =
      (unsubscribe_request env s g cl).groupName ∧
    (subscribe_request env s g cl).body =
      RequestBody.subscribeServiceReq env.namespaceId cl true ∧
    (unsubscribe_request env s g cl).body =
      RequestBody.subscribeServiceReq env.namespaceId cl false := by
  refine ⟨?_, ?_, ?_, ?_, rfl, rfl, rfl, rfl⟩
  · exact get_header_put_same [] "app" env.appName
  · rw [get_header_signRequest_other env _ "app" (by decide) (by decide) (by decide)
        (by decide),
      get_header_put_all_not_mem _ _ _ hsec]
    exact get_header_put_same [] "app" env.appName
  · rw [get_header_signRequest_other env _ "app" (by decide) (by decide) (by decide)
        (by decide),
      get_header_put_all_not_mem _ _ _ hsec]
    rfl
  · obtain ⟨rest, htr, _⟩ := request_naming_server_trace env
      (unsubscribe_request env s g cl) RespClass.subscribeServiceResponse
    have hun : (unsubscribe env s g cl).1 =
        Ev.removeSubscriberForRedo (get_group_name s g) cl ::
          (request_naming_server env (unsubscribe_request env s g cl)
            RespClass.subscribeServiceResponse).1 := by
      simp only [unsubscribe]
      cases hout : (request_naming_server env (unsubscribe_request env s g cl)
          RespClass.subscribeServiceResponse).2 with
      | ok r => rfl
      | error e => rfl
    rw [hun, htr]
    exact List.mem_cons_of_mem _ (List.mem_cons_self _ _)

/-- Witness for C10 at a concrete client configuration. -/
theorem c10_witness :
    get_header (subscribe_request (baseEnv (RpcOutcome.otherError "down"))
      "svc-a" "g" "c1").headers "app" =
      some (baseEnv (RpcOutcome.otherError "down")).appName ∧
    get_header (signRequest (baseEnv (RpcOutcome.otherError "down"))
      (subscribe_request (baseEnv (RpcOutcome.otherError "down")) "svc-a" "g" "c1")).headers
      "app" = some (baseEnv (RpcOutcome.otherError "down")).appName ∧
    get_header (signRequest (baseEnv (RpcOutcome.otherError "down"))
      (unsubscribe_request (baseEnv (RpcOutcome.otherError "down")) "svc-a" "g" "c1")).headers
      "app" = none ∧
    Ev.rpcDispatch (signRequest (baseEnv (RpcOutcome.otherError "down"))
      (unsubscribe_request (baseEnv (RpcOutcome.otherError "down")) "svc-a" "g" "c1")) ∈
      (unsubscribe (baseEnv (RpcOutcome.otherError "down")) "svc-a" "g" "c1").1 ∧
    (subscribe_request (baseEnv (RpcOutcome.otherError "down")) "svc-a" "g" "c1").serviceName =
      (unsubscribe_request (baseEnv (RpcOutcome.otherError "down")) "svc-a" "g" "c1").serviceName ∧
    (subscribe_request (baseEnv (RpcOutcome.otherError "down")) "svc-a" "g" "c1").groupName =
      (unsubscribe_request (baseEnv (RpcOutcome.otherError "down")) "svc-a" "g" "c1").groupName ∧
    (subscribe_request (baseEnv (RpcOutcome.otherError "down")) "svc-a" "g" "c1").body =
      RequestBody.subscribeServiceReq (baseEnv (RpcOutcome.otherError "down")).namespaceId
        "c1" true ∧
    (unsubscribe_request (baseEnv (RpcOutcome.otherError "down")) "svc-a" "g" "c1").body =
      RequestBody.subscribeServiceReq (baseEnv (RpcOutcome.otherError "down")).namespaceId
        "c1" false :=
  c10_subscribe_app_header (baseEnv (RpcOutcome.otherError "down")) "svc-a" "g" "c1"
    (by simp [baseEnv])

end NacosNaming
